import Mathlib

set_option maxRecDepth 100000
set_option linter.unusedVariables false

/-!
Verification of the Matter light example's application glue layer
(`examples/light/main/app_matter.cpp`): the inbound attribute dispatcher,
the outbound attribute reporters, and the stack lifecycle sequence
(`app_matter_init`), shallowly embedded as pure Lean functions.

External effects (driver calls, log lines, attribute-store writes and
lifecycle actions) are reified as values: handlers return the list of
driver calls plus log counters, reporters return the attribute write they
issue (or `none` when an assertion fires), and `app_matter_init` returns
the trace of lifecycle actions together with the `esp_err_t` result.
-/

namespace AppMatter

/-- Modelled from the spec: the `REMAP_TO_RANGE` macro lives in the missing
header `app_constants.h`; the spec gives
`remap(value, fromMax, toMax) = round(value * toMax / fromMax)`, a linear
rescale between closed integer ranges starting at 0 (round half up). -/
def REMAP_TO_RANGE (value fromMax toMax : Nat) : Nat :=
  (2 * value * toMax + fromMax) / (2 * fromMax)

/-- Modelled from the spec: wire hue range max (254), from `app_constants.h`. -/
def HUE_ATTRIBUTE_MAX : Nat := 254

/-- Modelled from the spec: local hue degrees max (359), from `app_constants.h`. -/
def HUE_MAX : Nat := 359

/-- Modelled from the spec: wire saturation range max (254), from `app_constants.h`. -/
def SATURATION_ATTRIBUTE_MAX : Nat := 254

/-- Modelled from the spec: local saturation percent max (100), from `app_constants.h`. -/
def SATURATION_MAX : Nat := 100

/-- Standard ZCL cluster id for On/Off (0x0006), from the generated
`cluster-id.h` header referenced by the source. -/
def ZCL_ON_OFF_CLUSTER_ID : Nat := 0x0006

/-- Standard ZCL cluster id for Level Control (0x0008). -/
def ZCL_LEVEL_CONTROL_CLUSTER_ID : Nat := 0x0008

/-- Standard ZCL cluster id for Color Control (0x0300). -/
def ZCL_COLOR_CONTROL_CLUSTER_ID : Nat := 0x0300

/-- Standard ZCL attribute id for OnOff (0x0000). -/
def ZCL_ON_OFF_ATTRIBUTE_ID : Nat := 0x0000

/-- Standard ZCL attribute id for CurrentLevel (0x0000). -/
def ZCL_CURRENT_LEVEL_ATTRIBUTE_ID : Nat := 0x0000

/-- Standard ZCL attribute id for CurrentHue (0x0000). -/
def ZCL_COLOR_CONTROL_CURRENT_HUE_ATTRIBUTE_ID : Nat := 0x0000

/-- Standard ZCL attribute id for CurrentSaturation (0x0001). -/
def ZCL_COLOR_CONTROL_CURRENT_SATURATION_ATTRIBUTE_ID : Nat := 0x0001

/-- Standard ZCL attribute id for ColorTemperatureMireds (0x0007). -/
def ZCL_COLOR_CONTROL_COLOR_TEMPERATURE_ATTRIBUTE_ID : Nat := 0x0007

/-- Standard ZCL server cluster mask (0x40), from `att-storage.h`. -/
def CLUSTER_MASK_SERVER : Nat := 0x40

/-- Standard ZCL boolean attribute type tag (0x10). -/
def ZCL_BOOLEAN_ATTRIBUTE_TYPE : Nat := 0x10

/-- Standard ZCL unsigned 8-bit attribute type tag (0x20). -/
def ZCL_INT8U_ATTRIBUTE_TYPE : Nat := 0x20

/-- Standard ZCL unsigned 16-bit attribute type tag (0x21). -/
def ZCL_INT16U_ATTRIBUTE_TYPE : Nat := 0x21

/-- Standard Ember ZCL success status (0x00). -/
def EMBER_ZCL_STATUS_SUCCESS : Nat := 0x00

/-- Modelled from the spec: the driver-source tags from `app_driver.h`;
the layer always passes `APP_DRIVER_SRC_MATTER` (the protocol-origin tag). -/
inductive AppDriverSrc where
  | matter
  | local_button
deriving DecidableEq, Repr

/-- A call into the driver subsystem (`app_driver_update_and_report_*`),
reified with its numeric argument and origin source tag. -/
inductive DriverCall where
  | updatePower (value : Nat) (src : AppDriverSrc)
  | updateBrightness (value : Nat) (src : AppDriverSrc)
  | updateHue (value : Nat) (src : AppDriverSrc)
  | updateSaturation (value : Nat) (src : AppDriverSrc)
  | updateTemperature (value : Nat) (src : AppDriverSrc)
deriving DecidableEq, Repr

/-- Observable outcome of a dispatcher invocation: the driver calls it made,
how many warning log lines (`ESP_LOGW`) it emitted, and how many
informational log lines (`ESP_LOGI`) it emitted. -/
structure DispatchResult where
  calls : List DriverCall
  warnings : Nat
  infos : Nat
deriving DecidableEq, Repr

/-- Handler for On/Off cluster changes (`on_on_off_attribute_changed`):
the on/off attribute forwards the notified byte to the driver power update;
any other attribute logs one warning and makes no driver call. -/
def on_on_off_attribute_changed (endpoint attr value size : Nat) : DispatchResult :=
  if attr = ZCL_ON_OFF_ATTRIBUTE_ID then
    ⟨[DriverCall.updatePower value AppDriverSrc.matter], 0, 0⟩
  else
    ⟨[], 1, 0⟩

/-- Handler for Level Control cluster changes
(`on_level_control_atrribute_changed`, name kept from the source): the
current-level attribute forwards the notified byte to the driver brightness
update; any other attribute logs one warning. -/
def on_level_control_atrribute_changed (endpoint attr value size : Nat) : DispatchResult :=
  if attr = ZCL_CURRENT_LEVEL_ATTRIBUTE_ID then
    ⟨[DriverCall.updateBrightness value AppDriverSrc.matter], 0, 0⟩
  else
    ⟨[], 1, 0⟩

/-- Handler for Color Control cluster changes
(`on_color_control_attribute_changed`). `store` models
`emberAfReadServerAttribute` as a pure map from (endpoint, cluster,
attribute) to the stored 16-bit value; the color-temperature branch reads
the current mireds from the store (ignoring the notified raw value) and
converts to Kelvin by `1000000 / (mireds == 0 ? 1 : mireds)`. -/
def on_color_control_attribute_changed (store : Nat → Nat → Nat → Nat)
    (endpoint attr value size : Nat) : DispatchResult :=
  if attr = ZCL_COLOR_CONTROL_CURRENT_HUE_ATTRIBUTE_ID then
    ⟨[DriverCall.updateHue (REMAP_TO_RANGE value HUE_ATTRIBUTE_MAX HUE_MAX) AppDriverSrc.matter], 0, 0⟩
  else if attr = ZCL_COLOR_CONTROL_CURRENT_SATURATION_ATTRIBUTE_ID then
    ⟨[DriverCall.updateSaturation (REMAP_TO_RANGE value SATURATION_ATTRIBUTE_MAX SATURATION_MAX) AppDriverSrc.matter], 0, 0⟩
  else if attr = ZCL_COLOR_CONTROL_COLOR_TEMPERATURE_ATTRIBUTE_ID then
    let temp_mireds :=
      store endpoint ZCL_COLOR_CONTROL_CLUSTER_ID ZCL_COLOR_CONTROL_COLOR_TEMPERATURE_ATTRIBUTE_ID % 65536
    let color_temp := 1000000 / (if temp_mireds = 0 then 1 else temp_mireds)
    ⟨[DriverCall.updateTemperature color_temp AppDriverSrc.matter], 0, 0⟩
  else
    ⟨[], 1, 0⟩

/-- Top-level inbound dispatcher (`emberAfPostAttributeChangeCallback`):
logs the cluster id at informational level, then routes by cluster id to the
per-cluster handler; unrecognized clusters fall through with no action and
no warning. The `mask`, `manufacturer`, `ty` and `size` parameters mirror
the C signature and are never read (beyond being passed along unread). -/
def emberAfPostAttributeChangeCallback (store : Nat → Nat → Nat → Nat)
    (endpoint cluster attr mask manufacturer ty size value : Nat) : DispatchResult :=
  let r :=
    if cluster = ZCL_ON_OFF_CLUSTER_ID then
      on_on_off_attribute_changed endpoint attr value size
    else if cluster = ZCL_LEVEL_CONTROL_CLUSTER_ID then
      on_level_control_atrribute_changed endpoint attr value size
    else if cluster = ZCL_COLOR_CONTROL_CLUSTER_ID then
      on_color_control_attribute_changed store endpoint attr value size
    else
      ⟨[], 0, 0⟩
  { r with infos := r.infos + 1 }

/-- An `emberAfWriteAttribute` request as issued by the outbound reporters:
endpoint, cluster, attribute, cluster mask, the written value and the ZCL
type tag. -/
structure AttrWrite where
  endpoint : Nat
  cluster : Nat
  attr : Nat
  mask : Nat
  value : Nat
  ty : Nat
deriving DecidableEq, Repr

/-- The write issued by `update_matter_power`: on/off boolean at endpoint 1. -/
def powerWrite (power : Bool) : AttrWrite :=
  ⟨1, ZCL_ON_OFF_CLUSTER_ID, ZCL_ON_OFF_ATTRIBUTE_ID, CLUSTER_MASK_SERVER,
    if power then 1 else 0, ZCL_BOOLEAN_ATTRIBUTE_TYPE⟩

/-- The write issued by `update_matter_brightness`: current level at endpoint 1. -/
def brightnessWrite (brightness : Nat) : AttrWrite :=
  ⟨1, ZCL_LEVEL_CONTROL_CLUSTER_ID, ZCL_CURRENT_LEVEL_ATTRIBUTE_ID, CLUSTER_MASK_SERVER,
    brightness, ZCL_INT8U_ATTRIBUTE_TYPE⟩

/-- The write issued by `update_matter_hue`: local degrees remapped to the
wire range and truncated to the `uint8_t` local `hue_attribute`. -/
def hueWrite (hue : Nat) : AttrWrite :=
  ⟨1, ZCL_COLOR_CONTROL_CLUSTER_ID, ZCL_COLOR_CONTROL_CURRENT_HUE_ATTRIBUTE_ID, CLUSTER_MASK_SERVER,
    REMAP_TO_RANGE hue HUE_MAX HUE_ATTRIBUTE_MAX % 256, ZCL_INT8U_ATTRIBUTE_TYPE⟩

/-- The write issued by `update_matter_saturation`: local percent remapped to
the wire range and truncated to the `uint8_t` local `saturation_attribute`. -/
def saturationWrite (saturation : Nat) : AttrWrite :=
  ⟨1, ZCL_COLOR_CONTROL_CLUSTER_ID, ZCL_COLOR_CONTROL_CURRENT_SATURATION_ATTRIBUTE_ID, CLUSTER_MASK_SERVER,
    REMAP_TO_RANGE saturation SATURATION_MAX SATURATION_ATTRIBUTE_MAX % 256, ZCL_INT8U_ATTRIBUTE_TYPE⟩

/-- The write issued by `update_matter_temperature`: `temp_mireds` is the
`uint16_t` holding `1000000 / temperature` (hence the reduction mod 2^16). -/
def temperatureWrite (temperature : Nat) : AttrWrite :=
  ⟨1, ZCL_COLOR_CONTROL_CLUSTER_ID, ZCL_COLOR_CONTROL_COLOR_TEMPERATURE_ATTRIBUTE_ID, CLUSTER_MASK_SERVER,
    (1000000 / temperature) % 65536, ZCL_INT16U_ATTRIBUTE_TYPE⟩

/-- `update_matter_power`: issues the on/off write; `writeStatus` models the
attribute store's status for a given write request, and the trailing
`assert(status == EMBER_ZCL_STATUS_SUCCESS)` is modelled by returning `none`
(abort) on a non-success status. -/
def update_matter_power (writeStatus : AttrWrite → Nat) (power : Bool) : Option AttrWrite :=
  if writeStatus (powerWrite power) = EMBER_ZCL_STATUS_SUCCESS then some (powerWrite power)
  else none

/-- `update_matter_brightness`: issues the current-level write and asserts
success. -/
def update_matter_brightness (writeStatus : AttrWrite → Nat) (brightness : Nat) : Option AttrWrite :=
  if writeStatus (brightnessWrite brightness) = EMBER_ZCL_STATUS_SUCCESS then
    some (brightnessWrite brightness)
  else none

/-- `update_matter_hue`: issues the current-hue write and asserts success. -/
def update_matter_hue (writeStatus : AttrWrite → Nat) (hue : Nat) : Option AttrWrite :=
  if writeStatus (hueWrite hue) = EMBER_ZCL_STATUS_SUCCESS then some (hueWrite hue)
  else none

/-- `update_matter_saturation`: issues the current-saturation write and
asserts success. -/
def update_matter_saturation (writeStatus : AttrWrite → Nat) (saturation : Nat) : Option AttrWrite :=
  if writeStatus (saturationWrite saturation) = EMBER_ZCL_STATUS_SUCCESS then
    some (saturationWrite saturation)
  else none

/-- `update_matter_temperature`: `assert(temperature >= 18)` is modelled by
returning `none` (abort) below 18; otherwise issues the color-temperature
write and asserts success. -/
def update_matter_temperature (writeStatus : AttrWrite → Nat) (temperature : Nat) : Option AttrWrite :=
  if 18 ≤ temperature then
    if writeStatus (temperatureWrite temperature) = EMBER_ZCL_STATUS_SUCCESS then
      some (temperatureWrite temperature)
    else none
  else none

/-- Success/failure of each external lifecycle step called by
`app_matter_init` (`true` models `CHIP_NO_ERROR` / success), plus the
`CHIP_DEVICE_CONFIG_ENABLE_THREAD` build flag. -/
structure ChipEnv where
  initChipStack : Bool
  memoryInit : Bool
  startEventLoopTask : Bool
  threadEnabled : Bool
  initThreadStack : Bool
  startThreadTask : Bool
deriving DecidableEq, Repr, Fintype

/-- The externally visible actions `app_matter_init` performs, in order. -/
inductive LifecycleAction where
  | initChipStack
  | setBLEAdvertisingEnabled
  | memoryInit
  | startEventLoopTask
  | memoryShutdown
  | addEventHandler
  | initThreadStack
  | startThreadTask
  | initServer
  | registerSrc
deriving DecidableEq, Repr

/-- `ESP_OK` from `esp_err.h` (0). -/
def ESP_OK : Int := 0

/-- `ESP_FAIL` from `esp_err.h` (-1). -/
def ESP_FAIL : Int := -1

/-- `ESP_ERR_NO_MEM` from `esp_err.h` (0x101). -/
def ESP_ERR_NO_MEM : Int := 0x101

/-- `app_matter_init`: the linear bring-up sequence with early-return error
propagation, returning the trace of actions performed together with the
`esp_err_t` result. The Thread steps are guarded by the build flag. -/
def app_matter_init (env : ChipEnv) : List LifecycleAction × Int :=
  if !env.initChipStack then
    ([LifecycleAction.initChipStack], ESP_FAIL)
  else if !env.memoryInit then
    ([LifecycleAction.initChipStack, LifecycleAction.setBLEAdvertisingEnabled,
      LifecycleAction.memoryInit], ESP_ERR_NO_MEM)
  else if !env.startEventLoopTask then
    ([LifecycleAction.initChipStack, LifecycleAction.setBLEAdvertisingEnabled,
      LifecycleAction.memoryInit, LifecycleAction.startEventLoopTask,
      LifecycleAction.memoryShutdown], ESP_FAIL)
  else if env.threadEnabled && !env.initThreadStack then
    ([LifecycleAction.initChipStack, LifecycleAction.setBLEAdvertisingEnabled,
      LifecycleAction.memoryInit, LifecycleAction.startEventLoopTask,
      LifecycleAction.addEventHandler, LifecycleAction.initThreadStack], ESP_FAIL)
  else if env.threadEnabled && !env.startThreadTask then
    ([LifecycleAction.initChipStack, LifecycleAction.setBLEAdvertisingEnabled,
      LifecycleAction.memoryInit, LifecycleAction.startEventLoopTask,
      LifecycleAction.addEventHandler, LifecycleAction.initThreadStack,
      LifecycleAction.startThreadTask], ESP_FAIL)
  else if env.threadEnabled then
    ([LifecycleAction.initChipStack, LifecycleAction.setBLEAdvertisingEnabled,
      LifecycleAction.memoryInit, LifecycleAction.startEventLoopTask,
      LifecycleAction.addEventHandler, LifecycleAction.initThreadStack,
      LifecycleAction.startThreadTask, LifecycleAction.initServer,
      LifecycleAction.registerSrc], ESP_OK)
  else
    ([LifecycleAction.initChipStack, LifecycleAction.setBLEAdvertisingEnabled,
      LifecycleAction.memoryInit, LifecycleAction.startEventLoopTask,
      LifecycleAction.addEventHandler, LifecycleAction.initServer,
      LifecycleAction.registerSrc], ESP_OK)

/-- C3: when the driver reports hue 120 degrees, `update_matter_hue` writes
the wire value `round(120*254/359) = 85` to the color-control cluster's
current-hue attribute at endpoint 1 (shown here against a store whose write
status is always success). -/
theorem C3_hue_120_writes_85 :
    update_matter_hue (fun _ => EMBER_ZCL_STATUS_SUCCESS) 120 = some (hueWrite 120) ∧
    hueWrite 120 = ⟨1, ZCL_COLOR_CONTROL_CLUSTER_ID, ZCL_COLOR_CONTROL_CURRENT_HUE_ATTRIBUTE_ID,
      CLUSTER_MASK_SERVER, 85, ZCL_INT8U_ATTRIBUTE_TYPE⟩ := by
  constructor <;> rfl

/-- Wire-to-local-to-wire hue round trip: a wire hue is remapped to local
degrees (as the inbound dispatcher does) and back to the wire range (as
`update_matter_hue` does). -/
def hueRoundTrip (v : Nat) : Nat :=
  REMAP_TO_RANGE (REMAP_TO_RANGE v HUE_ATTRIBUTE_MAX HUE_MAX) HUE_MAX HUE_ATTRIBUTE_MAX

/-- Wire-to-local-to-wire saturation round trip against local range max 100. -/
def saturationRoundTrip (v : Nat) : Nat :=
  REMAP_TO_RANGE (REMAP_TO_RANGE v SATURATION_ATTRIBUTE_MAX SATURATION_MAX)
    SATURATION_MAX SATURATION_ATTRIBUTE_MAX

/-- C2: for every wire value v in [0,254], remapping to local hue degrees
(max 359) and back to the wire range yields a value within plus or minus 1
of v, and the same round-trip tolerance holds for saturation against local
range max 100. -/
theorem C2_remap_roundtrip (v : Nat) (hv : v ≤ 254) :
    (hueRoundTrip v ≤ v + 1 ∧ v ≤ hueRoundTrip v + 1) ∧
    (saturationRoundTrip v ≤ v + 1 ∧ v ≤ saturationRoundTrip v + 1) := by
  have h : ∀ w, w < 255 →
      (hueRoundTrip w ≤ w + 1 ∧ w ≤ hueRoundTrip w + 1) ∧
      (saturationRoundTrip w ≤ w + 1 ∧ w ≤ saturationRoundTrip w + 1) := by
    decide
  exact h v (Nat.lt_succ_of_le hv)

/-- Witness for C2 at the concrete wire value 200. -/
theorem C2_remap_roundtrip_witness :
    (200 : Nat) ≤ 254 ∧
    ((hueRoundTrip 200 ≤ 200 + 1 ∧ 200 ≤ hueRoundTrip 200 + 1) ∧
      (saturationRoundTrip 200 ≤ 200 + 1 ∧ 200 ≤ saturationRoundTrip 200 + 1)) :=
  ⟨by decide, C2_remap_roundtrip 200 (by decide)⟩

/-- C4: on an inbound color-temperature attribute change, the dispatcher
ignores the notified raw value, reads the current mireds value from the
attribute store, converts it to Kelvin as `1000000 / mireds` with 0 treated
as 1, and calls the driver temperature update with the result; in
particular a stored value of 250 mireds yields 4000 Kelvin and a stored
value of 0 yields 1000000 Kelvin, whatever raw value was notified. -/
theorem C4_color_temperature_reads_store :
    (∀ (store : Nat → Nat → Nat → Nat) (endpoint mask manufacturer ty size value : Nat),
      emberAfPostAttributeChangeCallback store endpoint ZCL_COLOR_CONTROL_CLUSTER_ID
        ZCL_COLOR_CONTROL_COLOR_TEMPERATURE_ATTRIBUTE_ID mask manufacturer ty size value =
      ⟨[DriverCall.updateTemperature
          (1000000 /
            (if store endpoint ZCL_COLOR_CONTROL_CLUSTER_ID
                ZCL_COLOR_CONTROL_COLOR_TEMPERATURE_ATTRIBUTE_ID % 65536 = 0 then 1
              else store endpoint ZCL_COLOR_CONTROL_CLUSTER_ID
                ZCL_COLOR_CONTROL_COLOR_TEMPERATURE_ATTRIBUTE_ID % 65536))
          AppDriverSrc.matter], 0, 1⟩) ∧
    (∀ endpoint mask manufacturer ty size value : Nat,
      emberAfPostAttributeChangeCallback (fun _ _ _ => 250) endpoint ZCL_COLOR_CONTROL_CLUSTER_ID
        ZCL_COLOR_CONTROL_COLOR_TEMPERATURE_ATTRIBUTE_ID mask manufacturer ty size value =
      ⟨[DriverCall.updateTemperature 4000 AppDriverSrc.matter], 0, 1⟩) ∧
    (∀ endpoint mask manufacturer ty size value : Nat,
      emberAfPostAttributeChangeCallback (fun _ _ _ => 0) endpoint ZCL_COLOR_CONTROL_CLUSTER_ID
        ZCL_COLOR_CONTROL_COLOR_TEMPERATURE_ATTRIBUTE_ID mask manufacturer ty size value =
      ⟨[DriverCall.updateTemperature 1000000 AppDriverSrc.matter], 0, 1⟩) := by
  refine ⟨fun store endpoint mask manufacturer ty size value => rfl, ?_, ?_⟩ <;>
    intros <;>
    simp only [emberAfPostAttributeChangeCallback, on_color_control_attribute_changed,
      on_on_off_attribute_changed, on_level_control_atrribute_changed,
      ZCL_ON_OFF_CLUSTER_ID, ZCL_LEVEL_CONTROL_CLUSTER_ID, ZCL_COLOR_CONTROL_CLUSTER_ID,
      ZCL_ON_OFF_ATTRIBUTE_ID, ZCL_CURRENT_LEVEL_ATTRIBUTE_ID,
      ZCL_COLOR_CONTROL_CURRENT_HUE_ATTRIBUTE_ID,
      ZCL_COLOR_CONTROL_CURRENT_SATURATION_ATTRIBUTE_ID,
      ZCL_COLOR_CONTROL_COLOR_TEMPERATURE_ATTRIBUTE_ID] <;>
    norm_num

/-- C5: the outbound temperature reporter has precondition `kelvin ≥ 18`:
below 18 it aborts (models the failed assertion) instead of writing a wrong
value; at or above 18, when the store write succeeds, it writes
`1000000 / kelvin` mireds, and `kelvinToMireds 4000 = 250`. -/
theorem C5_temperature_precondition :
    (∀ (writeStatus : AttrWrite → Nat) (temperature : Nat), temperature < 18 →
      update_matter_temperature writeStatus temperature = none) ∧
    (∀ (writeStatus : AttrWrite → Nat) (temperature : Nat), 18 ≤ temperature →
      writeStatus (temperatureWrite temperature) = EMBER_ZCL_STATUS_SUCCESS →
      update_matter_temperature writeStatus temperature = some (temperatureWrite temperature)) ∧
    (temperatureWrite 4000).value = 250 := by
  refine ⟨?_, ?_, rfl⟩
  · intro ws t ht
    simp [update_matter_temperature, Nat.not_le.mpr ht]
  · intro ws t ht hs
    simp [update_matter_temperature, ht, hs]

/-- Witness for C5: kelvin 10 aborts, kelvin 4000 writes 250 mireds. -/
theorem C5_temperature_precondition_witness :
    update_matter_temperature (fun _ => 0) 10 = none ∧
    update_matter_temperature (fun _ => 0) 4000 = some (temperatureWrite 4000) :=
  ⟨C5_temperature_precondition.1 (fun _ => 0) 10 (by decide),
    C5_temperature_precondition.2.1 (fun _ => 0) 4000 (by decide) rfl⟩

/-- C6: an inbound event whose attribute id is unrecognized within a known
cluster (On/Off, Level Control, Color Control) produces no driver call and
exactly one warning log; an event whose cluster id is unrecognized produces
no driver call and no warning log (only the informational cluster-id log). -/
theorem C6_unknown_attr_warned_unknown_cluster_silent :
    (∀ (store : Nat → Nat → Nat → Nat) (endpoint attr mask manufacturer ty size value : Nat),
      attr ≠ ZCL_ON_OFF_ATTRIBUTE_ID →
      emberAfPostAttributeChangeCallback store endpoint ZCL_ON_OFF_CLUSTER_ID attr
        mask manufacturer ty size value = ⟨[], 1, 1⟩) ∧
    (∀ (store : Nat → Nat → Nat → Nat) (endpoint attr mask manufacturer ty size value : Nat),
      attr ≠ ZCL_CURRENT_LEVEL_ATTRIBUTE_ID →
      emberAfPostAttributeChangeCallback store endpoint ZCL_LEVEL_CONTROL_CLUSTER_ID attr
        mask manufacturer ty size value = ⟨[], 1, 1⟩) ∧
    (∀ (store : Nat → Nat → Nat → Nat) (endpoint attr mask manufacturer ty size value : Nat),
      attr ≠ ZCL_COLOR_CONTROL_CURRENT_HUE_ATTRIBUTE_ID →
      attr ≠ ZCL_COLOR_CONTROL_CURRENT_SATURATION_ATTRIBUTE_ID →
      attr ≠ ZCL_COLOR_CONTROL_COLOR_TEMPERATURE_ATTRIBUTE_ID →
      emberAfPostAttributeChangeCallback store endpoint ZCL_COLOR_CONTROL_CLUSTER_ID attr
        mask manufacturer ty size value = ⟨[], 1, 1⟩) ∧
    (∀ (store : Nat → Nat → Nat → Nat) (endpoint cluster attr mask manufacturer ty size value : Nat),
      cluster ≠ ZCL_ON_OFF_CLUSTER_ID →
      cluster ≠ ZCL_LEVEL_CONTROL_CLUSTER_ID →
      cluster ≠ ZCL_COLOR_CONTROL_CLUSTER_ID →
      emberAfPostAttributeChangeCallback store endpoint cluster attr
        mask manufacturer ty size value = ⟨[], 0, 1⟩) := by
  refine ⟨?_, ?_, ?_, ?_⟩
  · intro store endpoint attr mask manufacturer ty size value h
    simp [emberAfPostAttributeChangeCallback, on_on_off_attribute_changed, h]
  · intro store endpoint attr mask manufacturer ty size value h
    simp [emberAfPostAttributeChangeCallback, on_level_control_atrribute_changed,
      ZCL_ON_OFF_CLUSTER_ID, ZCL_LEVEL_CONTROL_CLUSTER_ID, h]
  · intro store endpoint attr mask manufacturer ty size value h1 h2 h3
    simp [emberAfPostAttributeChangeCallback, on_color_control_attribute_changed,
      ZCL_ON_OFF_CLUSTER_ID, ZCL_LEVEL_CONTROL_CLUSTER_ID, ZCL_COLOR_CONTROL_CLUSTER_ID,
      h1, h2, h3]
  · intro store endpoint cluster attr mask manufacturer ty size value h1 h2 h3
    simp [emberAfPostAttributeChangeCallback, h1, h2, h3]

/-- Witness for C6: attribute 5 in the On/Off cluster is warned and dropped;
cluster 1234 is dropped silently. -/
theorem C6_unknown_attr_warned_unknown_cluster_silent_witness :
    emberAfPostAttributeChangeCallback (fun _ _ _ => 0) 1 ZCL_ON_OFF_CLUSTER_ID 5
      0 0 0 1 1 = ⟨[], 1, 1⟩ ∧
    emberAfPostAttributeChangeCallback (fun _ _ _ => 0) 1 1234 0 0 0 0 1 1 = ⟨[], 0, 1⟩ :=
  ⟨C6_unknown_attr_warned_unknown_cluster_silent.1 (fun _ _ _ => 0) 1 5 0 0 0 1 1 (by decide),
    C6_unknown_attr_warned_unknown_cluster_silent.2.2.2 (fun _ _ _ => 0) 1 1234 0 0 0 0 1 1
      (by decide) (by decide) (by decide)⟩

/-- C7: the memory pool is torn down exactly on the event-loop-start failure
path (chip stack and memory init succeeded, event-loop start failed), and on
that path `app_matter_init` performs the teardown as its final action and
returns `ESP_FAIL`; no other path ever performs the teardown. -/
theorem C7_event_loop_failure_memory_shutdown :
    (∀ env : ChipEnv,
      LifecycleAction.memoryShutdown ∈ (app_matter_init env).1 ↔
        (env.initChipStack = true ∧ env.memoryInit = true ∧ env.startEventLoopTask = false)) ∧
    (∀ env : ChipEnv,
      env.initChipStack = true → env.memoryInit = true → env.startEventLoopTask = false →
      app_matter_init env =
        ([LifecycleAction.initChipStack, LifecycleAction.setBLEAdvertisingEnabled,
          LifecycleAction.memoryInit, LifecycleAction.startEventLoopTask,
          LifecycleAction.memoryShutdown], ESP_FAIL)) := by
  refine ⟨?_, ?_⟩ <;> decide

/-- Witness for C7 at a concrete environment where only the event-loop
start fails. -/
theorem C7_event_loop_failure_memory_shutdown_witness :
    app_matter_init ⟨true, true, false, false, true, true⟩ =
      ([LifecycleAction.initChipStack, LifecycleAction.setBLEAdvertisingEnabled,
        LifecycleAction.memoryInit, LifecycleAction.startEventLoopTask,
        LifecycleAction.memoryShutdown], ESP_FAIL) :=
  C7_event_loop_failure_memory_shutdown.2 ⟨true, true, false, false, true, true⟩ rfl rfl rfl

/-- C1 counterexample: the chip-stack-init failure, the event-loop-start
failure and the Thread-init failure all return the same code `ESP_FAIL`, so
the failing steps do not each return a distinct failure code. -/
theorem C1_counterexample_same_fail_code :
    (app_matter_init ⟨false, true, true, false, true, true⟩).2 = ESP_FAIL ∧
    (app_matter_init ⟨true, true, false, false, true, true⟩).2 = ESP_FAIL ∧
    (app_matter_init ⟨true, true, true, true, false, true⟩).2 = ESP_FAIL ∧
    (app_matter_init ⟨false, true, true, false, true, true⟩).2 =
      (app_matter_init ⟨true, true, false, false, true, true⟩).2 := by
  refine ⟨rfl, rfl, rfl, rfl⟩

/-- C1 amended: only the memory-pool-init failure returns a distinct code
(`ESP_ERR_NO_MEM`); chip-stack init, event-loop start and the Thread
init/start failures all return the same code `ESP_FAIL`, which differs from
`ESP_ERR_NO_MEM`. -/
theorem C1_amended_failure_codes :
    (∀ env : ChipEnv, env.initChipStack = false → (app_matter_init env).2 = ESP_FAIL) ∧
    (∀ env : ChipEnv, env.initChipStack = true → env.memoryInit = false →
      (app_matter_init env).2 = ESP_ERR_NO_MEM) ∧
    (∀ env : ChipEnv, env.initChipStack = true → env.memoryInit = true →
      env.startEventLoopTask = false → (app_matter_init env).2 = ESP_FAIL) ∧
    (∀ env : ChipEnv, env.initChipStack = true → env.memoryInit = true →
      env.startEventLoopTask = true → env.threadEnabled = true →
      (env.initThreadStack = false ∨ env.startThreadTask = false) →
      (app_matter_init env).2 = ESP_FAIL) ∧
    ESP_ERR_NO_MEM ≠ ESP_FAIL := by
  refine ⟨?_, ?_, ?_, ?_, ?_⟩ <;> decide

/-- Witness for C1 amended at concrete environments for the memory-pool and
event-loop failure paths. -/
theorem C1_amended_failure_codes_witness :
    (app_matter_init ⟨true, false, true, false, true, true⟩).2 = ESP_ERR_NO_MEM ∧
    (app_matter_init ⟨true, true, false, false, true, true⟩).2 = ESP_FAIL :=
  ⟨C1_amended_failure_codes.2.1 ⟨true, false, true, false, true, true⟩ rfl rfl,
    C1_amended_failure_codes.2.2.1 ⟨true, true, false, false, true, true⟩ rfl rfl rfl⟩

/-- C8: every attribute write issued by the five outbound reporters targets
endpoint 1, and whenever the store reports a non-success status for the
issued write, the reporter aborts (models the failed
`assert(status == EMBER_ZCL_STATUS_SUCCESS)`) instead of returning. -/
theorem C8_writes_endpoint1_nonsuccess_aborts :
    (∀ (power : Bool) (brightness hue saturation temperature : Nat),
      (powerWrite power).endpoint = 1 ∧ (brightnessWrite brightness).endpoint = 1 ∧
      (hueWrite hue).endpoint = 1 ∧ (saturationWrite saturation).endpoint = 1 ∧
      (temperatureWrite temperature).endpoint = 1) ∧
    (∀ (writeStatus : AttrWrite → Nat) (power : Bool) (brightness hue saturation temperature : Nat),
      (writeStatus (powerWrite power) ≠ EMBER_ZCL_STATUS_SUCCESS →
        update_matter_power writeStatus power = none) ∧
      (writeStatus (brightnessWrite brightness) ≠ EMBER_ZCL_STATUS_SUCCESS →
        update_matter_brightness writeStatus brightness = none) ∧
      (writeStatus (hueWrite hue) ≠ EMBER_ZCL_STATUS_SUCCESS →
        update_matter_hue writeStatus hue = none) ∧
      (writeStatus (saturationWrite saturation) ≠ EMBER_ZCL_STATUS_SUCCESS →
        update_matter_saturation writeStatus saturation = none) ∧
      (writeStatus (temperatureWrite temperature) ≠ EMBER_ZCL_STATUS_SUCCESS →
        update_matter_temperature writeStatus temperature = none)) := by
  refine ⟨?_, ?_⟩
  · intro power brightness hue saturation temperature
    exact ⟨rfl, rfl, rfl, rfl, rfl⟩
  · intro ws power brightness hue saturation temperature
    refine ⟨?_, ?_, ?_, ?_, ?_⟩ <;> intro h
    · simp [update_matter_power, h]
    · simp [update_matter_brightness, h]
    · simp [update_matter_hue, h]
    · simp [update_matter_saturation, h]
    · simp [update_matter_temperature, h]

/-- Witness for C8 with a store that rejects every write: each reporter
aborts. -/
theorem C8_writes_endpoint1_nonsuccess_aborts_witness :
    update_matter_power (fun _ => 1) true = none ∧
    update_matter_brightness (fun _ => 1) 7 = none ∧
    update_matter_hue (fun _ => 1) 120 = none ∧
    update_matter_saturation (fun _ => 1) 50 = none ∧
    update_matter_temperature (fun _ => 1) 4000 = none := by
  have h := C8_writes_endpoint1_nonsuccess_aborts.2 (fun _ => 1) true 7 120 50 4000
  exact ⟨h.1 (by decide), h.2.1 (by decide), h.2.2.1 (by decide), h.2.2.2.1 (by decide),
    h.2.2.2.2 (by decide)⟩

/-- C9 counterexample: kelvin 1000001 satisfies the precondition (≥ 18) but
the computed mireds value is 0, outside the claimed range [1, 55555]. -/
theorem C9_counterexample_mireds_zero :
    (18 : Nat) ≤ 1000001 ∧ (temperatureWrite 1000001).value = 0 ∧
    ¬ 1 ≤ (temperatureWrite 1000001).value := by
  refine ⟨by decide, rfl, by decide⟩

/-- C9 amended: for every kelvin ≥ 18 the computed mireds value equals
`1000000 / kelvin` exactly (no 16-bit truncation) and is at most 55555,
hence fits an unsigned 16-bit integer and the wire-valid upper bound
0xfeff; the lower bound 1 additionally requires kelvin ≤ 1000000. -/
theorem C9_amended_mireds_bounds (temperature : Nat) (ht : 18 ≤ temperature) :
    (temperatureWrite temperature).value = 1000000 / temperature ∧
    (temperatureWrite temperature).value ≤ 55555 ∧
    (temperature ≤ 1000000 → 1 ≤ (temperatureWrite temperature).value) := by
  have ht0 : 0 < temperature := lt_of_lt_of_le (by norm_num) ht
  have hle : 1000000 / temperature ≤ 55555 := by
    have h : (1000000 : Nat) / temperature ≤ 1000000 / 18 := Nat.div_le_div_left ht (by norm_num)
    simpa using h
  have hval : (temperatureWrite temperature).value = 1000000 / temperature := by
    show (1000000 / temperature) % 65536 = 1000000 / temperature
    exact Nat.mod_eq_of_lt (lt_of_le_of_lt hle (by norm_num))
  refine ⟨hval, ?_, ?_⟩
  · rw [hval]; exact hle
  · intro hub
    rw [hval]
    exact (Nat.one_le_div_iff ht0).mpr hub

/-- Witness for C9 amended at kelvin 4000: mireds 250. -/
theorem C9_amended_mireds_bounds_witness :
    (temperatureWrite 4000).value = 1000000 / 4000 ∧
    (temperatureWrite 4000).value ≤ 55555 ∧
    ((4000 : Nat) ≤ 1000000 → 1 ≤ (temperatureWrite 4000).value) :=
  C9_amended_mireds_bounds 4000 (by decide)

/-- C10: the inbound dispatcher's observable behaviour (driver calls and
logs) is a function of the store state, endpoint, cluster id, attribute id
and the notified value byte only: the mask, manufacturer code, type tag and
size parameters are never read. -/
theorem C10_dispatcher_ignores_mask_manufacturer_type_size :
    ∀ (store : Nat → Nat → Nat → Nat) (endpoint cluster attr value : Nat)
      (mask₁ manufacturer₁ ty₁ size₁ mask₂ manufacturer₂ ty₂ size₂ : Nat),
      emberAfPostAttributeChangeCallback store endpoint cluster attr
        mask₁ manufacturer₁ ty₁ size₁ value =
      emberAfPostAttributeChangeCallback store endpoint cluster attr
        mask₂ manufacturer₂ ty₂ size₂ value := by
  intros
  rfl

end AppMatter
